import Mathlib

/-!
Verification of the sibling endpoint-resolution library (`src/lib.rs`,
`src/main.rs`) against its specification.

The library resolves network addresses of peer services ("siblings") by
region, with an in-memory registry of records backed by an external
key-value store.  We shallowly embed the data model and the resolution
operations: the backing store is a function from key to an optional
payload (absence models a fetch error), the registry is an explicit
`Endpoints` state threaded through each operation, and the Rust panics
(region parse failure, the `unwrap` inside `deserialize`) are modelled as
a `none` outcome of the whole call, distinct from a graceful miss.
-/

namespace Siblings

/-- Mirrors `enum Regions { IN, US }` from `src/lib.rs`. -/
inductive Regions where
  | IN : Regions
  | US : Regions
deriving DecidableEq, Repr

/-- Mirrors `impl From<&str> for Regions` (`src/lib.rs` lines 27-35): the
match arms accept exactly the literals "IN" | "IND" and "US" | "USA", and
the catch-all arm panics ("Region ... not supported"); `none` models that
panic. -/
def Regions.fromStr (value : String) : Option Regions :=
  if value = "IN" ∨ value = "IND" then some Regions.IN
  else if value = "US" ∨ value = "USA" then some Regions.US
  else none

/-- Mirrors `enum Env { Prod, Dev }`. -/
inductive Env where
  | Prod : Env
  | Dev : Env
deriving DecidableEq, Repr

/-- Mirrors `struct RegionEndpoint { default, ind, usa }`. -/
structure RegionEndpoint where
  default : String
  ind : Option String
  usa : Option String
deriving DecidableEq, Repr

/-- Mirrors `RegionEndpoint::get` (`src/lib.rs` lines 81-98): with a
region, return the matching override when it is present; in every other
case fall through to `Some(default)`. -/
def RegionEndpoint.get (self : RegionEndpoint) (region : Option Regions) :
    Option String :=
  match region with
  | some Regions.US =>
      match self.usa with
      | some u => some u
      | none => some self.default
  | some Regions.IN =>
      match self.ind with
      | some i => some i
      | none => some self.default
  | none => some self.default

/-- The `region.map(|r| r.into())` prelude shared by every accessor: no
region string maps to no region; a region string is parsed by
`Regions.fromStr`, whose failure (the `From` panic) aborts the whole
call, modelled by `none`. -/
def parseRegionOpt : Option String → Option (Option Regions)
  | none => some none
  | some s =>
      match Regions.fromStr s with
      | some r => some (some r)
      | none => none

namespace EndpointMap

/-- Lookup in the association-list model of `HashMap<String, RegionEndpoint>`. -/
def mapGet (m : List (String × RegionEndpoint)) (k : String) :
    Option RegionEndpoint :=
  match m with
  | [] => none
  | (k2, v) :: rest => if k2 = k then some v else mapGet rest k

/-- Insert-or-overwrite in the association-list model of
`HashMap::insert`. -/
def mapInsert (m : List (String × RegionEndpoint)) (k : String)
    (v : RegionEndpoint) : List (String × RegionEndpoint) :=
  match m with
  | [] => [(k, v)]
  | (k2, v2) :: rest =>
      if k2 = k then (k, v) :: rest else (k2, v2) :: mapInsert rest k v

end EndpointMap

open EndpointMap

/-- Mirrors `struct Endpoints` (`src/lib.rs` lines 58-71): one optional
fixed slot per well-known sibling plus the open `siblings` mapping. -/
structure Endpoints where
  august : Option RegionEndpoint
  bankstatement : Option RegionEndpoint
  k9 : Option RegionEndpoint
  matrix : Option RegionEndpoint
  pandora : Option RegionEndpoint
  retina : Option RegionEndpoint
  schematron : Option RegionEndpoint
  sentry : Option RegionEndpoint
  siblings : List (String × RegionEndpoint)
  thumbnailer : Option RegionEndpoint
  xchange : Option RegionEndpoint
deriving DecidableEq, Repr

/-- Mirrors `Endpoints::default()`: every fixed slot empty and an empty
open mapping. -/
def Endpoints.default : Endpoints :=
  ⟨none, none, none, none, none, none, none, none, [], none, none⟩

/-- A backing-store payload after the raw-bytes fetch: either bytes that
`serde_json` can read as a JSON object of string fields, or bytes it
cannot deserialize at all. -/
inductive Payload where
  | jsonObj : List (String × String) → Payload
  | malformed : Payload
deriving DecidableEq, Repr

/-- String-field lookup in a deserialized JSON object. -/
def fieldGet (fields : List (String × String)) (k : String) :
    Option String :=
  match fields with
  | [] => none
  | (k2, v) :: rest => if k2 = k then some v else fieldGet rest k

/-- Outcome of `Siblings::deserialize`: a record, the `serde_json` error
propagated by `?`, or the process-aborting panic of
`ep.get("default").unwrap()`. -/
inductive DeserResult where
  | ok : RegionEndpoint → DeserResult
  | err : DeserResult
  | crash : DeserResult
deriving DecidableEq, Repr

/-- Mirrors `Siblings::deserialize` (`src/lib.rs` lines 405-413): a
payload `serde_json` rejects propagates an error; otherwise the record is
built from the "default", "in" and "us" fields, and a missing "default"
panics (`unwrap` on `None`), modelled by `DeserResult.crash`. -/
def deserialize : Payload → DeserResult
  | Payload.malformed => DeserResult.err
  | Payload.jsonObj fields =>
      match fieldGet fields "default" with
      | none => DeserResult.crash
      | some d =>
          DeserResult.ok ⟨d, fieldGet fields "in", fieldGet fields "us"⟩

/-- Mirrors the key computation of `Siblings::get_cache` (`src/lib.rs`
lines 172-181): prepend "dev-" when the environment is `Dev`, pass the
key through unchanged when it is `Prod`. -/
def get_cache_key (env : Env) (key : String) : String :=
  if env = Env.Dev then "dev-" ++ key else key

/-- Mirrors the key computation of `load` in `src/main.rs` (lines 28-39):
the seed tool writes entry `k` under "dev-ep-k" when the process runs in
development mode and under "ep-k" otherwise. -/
def load_key (isdev : Bool) (k : String) : String :=
  if isdev then "dev-ep-" ++ k else "ep-" ++ k

/-- The observable effect of one accessor call that did not panic: the
value returned to the caller, the registry state after the call, and
whether a backing-store fetch (`get_cache`) was issued. -/
structure StepResult where
  result : Option String
  st : Endpoints
  fetched : Bool
deriving DecidableEq, Repr

/-- Mirrors `Siblings::august` (`src/lib.rs` lines 183-200): fast path on
the `august` slot; on miss fetch key "ep-august", deserialize, store into
the `august` slot and resolve; on fetch or deserialize error return
`None` with the registry untouched.  The whole call is `none` when the
region parse or the deserialize `unwrap` panics. -/
def august (env : Env) (store : String → Option Payload) (st : Endpoints)
    (region : Option String) : Option StepResult :=
  match parseRegionOpt region with
  | none => none
  | some r =>
      match st.august with
      | some ep => some ⟨ep.get r, st, false⟩
      | none =>
          match store (get_cache_key env "ep-august") with
          | none => some ⟨none, st, true⟩
          | some payload =>
              match deserialize payload with
              | DeserResult.crash => none
              | DeserResult.err => some ⟨none, st, true⟩
              | DeserResult.ok ep =>
                  some ⟨ep.get r, { st with august := some ep }, true⟩

/-- Mirrors `Siblings::k9` (`src/lib.rs` lines 202-219). -/
def k9 (env : Env) (store : String → Option Payload) (st : Endpoints)
    (region : Option String) : Option StepResult :=
  match parseRegionOpt region with
  | none => none
  | some r =>
      match st.k9 with
      | some ep => some ⟨ep.get r, st, false⟩
      | none =>
          match store (get_cache_key env "ep-k9") with
          | none => some ⟨none, st, true⟩
          | some payload =>
              match deserialize payload with
              | DeserResult.crash => none
              | DeserResult.err => some ⟨none, st, true⟩
              | DeserResult.ok ep =>
                  some ⟨ep.get r, { st with k9 := some ep }, true⟩

/-- Mirrors `Siblings::retina` (`src/lib.rs` lines 221-238).  Note the
source's fast path reads the `k9` slot (`if let Some(k9) =
&self.endpoints.read().await.k9`), not the `retina` slot, while the slow
path stores into the `retina` slot. -/
def retina (env : Env) (store : String → Option Payload) (st : Endpoints)
    (region : Option String) : Option StepResult :=
  match parseRegionOpt region with
  | none => none
  | some r =>
      match st.k9 with
      | some ep => some ⟨ep.get r, st, false⟩
      | none =>
          match store (get_cache_key env "ep-retina") with
          | none => some ⟨none, st, true⟩
          | some payload =>
              match deserialize payload with
              | DeserResult.crash => none
              | DeserResult.err => some ⟨none, st, true⟩
              | DeserResult.ok ep =>
                  some ⟨ep.get r, { st with retina := some ep }, true⟩

/-- Mirrors `Siblings::bankstatement` (`src/lib.rs` lines 240-257): fast
path on the `bankstatement` slot, slow path on key "ep-bank-statement"
storing into the `bankstatement` slot. -/
def bankstatement (env : Env) (store : String → Option Payload)
    (st : Endpoints) (region : Option String) : Option StepResult :=
  match parseRegionOpt region with
  | none => none
  | some r =>
      match st.bankstatement with
      | some ep => some ⟨ep.get r, st, false⟩
      | none =>
          match store (get_cache_key env "ep-bank-statement") with
          | none => some ⟨none, st, true⟩
          | some payload =>
              match deserialize payload with
              | DeserResult.crash => none
              | DeserResult.err => some ⟨none, st, true⟩
              | DeserResult.ok ep =>
                  some ⟨ep.get r, { st with bankstatement := some ep }, true⟩

/-- Mirrors `Siblings::matrix` (`src/lib.rs` lines 259-276). -/
def matrix (env : Env) (store : String → Option Payload) (st : Endpoints)
    (region : Option String) : Option StepResult :=
  match parseRegionOpt region with
  | none => none
  | some r =>
      match st.matrix with
      | some ep => some ⟨ep.get r, st, false⟩
      | none =>
          match store (get_cache_key env "ep-matrix") with
          | none => some ⟨none, st, true⟩
          | some payload =>
              match deserialize payload with
              | DeserResult.crash => none
              | DeserResult.err => some ⟨none, st, true⟩
              | DeserResult.ok ep =>
                  some ⟨ep.get r, { st with matrix := some ep }, true⟩

/-- Mirrors `Siblings::pandora` (`src/lib.rs` lines 278-295). -/
def pandora (env : Env) (store : String → Option Payload) (st : Endpoints)
    (region : Option String) : Option StepResult :=
  match parseRegionOpt region with
  | none => none
  | some r =>
      match st.pandora with
      | some ep => some ⟨ep.get r, st, false⟩
      | none =>
          match store (get_cache_key env "ep-pandora") with
          | none => some ⟨none, st, true⟩
          | some payload =>
              match deserialize payload with
              | DeserResult.crash => none
              | DeserResult.err => some ⟨none, st, true⟩
              | DeserResult.ok ep =>
                  some ⟨ep.get r, { st with pandora := some ep }, true⟩

/-- Mirrors `Siblings::schematron` (`src/lib.rs` lines 297-314).  Note
the source's slow path stores the fetched record into the `pandora` slot
(`w.pandora = Some(ep.clone())`), not the `schematron` slot, while the
fast path reads the `schematron` slot. -/
def schematron (env : Env) (store : String → Option Payload)
    (st : Endpoints) (region : Option String) : Option StepResult :=
  match parseRegionOpt region with
  | none => none
  | some r =>
      match st.schematron with
      | some ep => some ⟨ep.get r, st, false⟩
      | none =>
          match store (get_cache_key env "ep-schematron") with
          | none => some ⟨none, st, true⟩
          | some payload =>
              match deserialize payload with
              | DeserResult.crash => none
              | DeserResult.err => some ⟨none, st, true⟩
              | DeserResult.ok ep =>
                  some ⟨ep.get r, { st with pandora := some ep }, true⟩

/-- Mirrors `Siblings::sentry` (`src/lib.rs` lines 316-333). -/
def sentry (env : Env) (store : String → Option Payload) (st : Endpoints)
    (region : Option String) : Option StepResult :=
  match parseRegionOpt region with
  | none => none
  | some r =>
      match st.sentry with
      | some ep => some ⟨ep.get r, st, false⟩
      | none =>
          match store (get_cache_key env "ep-sentry") with
          | none => some ⟨none, st, true⟩
          | some payload =>
              match deserialize payload with
              | DeserResult.crash => none
              | DeserResult.err => some ⟨none, st, true⟩
              | DeserResult.ok ep =>
                  some ⟨ep.get r, { st with sentry := some ep }, true⟩

/-- Mirrors `Siblings::thumbnailer` (`src/lib.rs` lines 335-352). -/
def thumbnailer (env : Env) (store : String → Option Payload)
    (st : Endpoints) (region : Option String) : Option StepResult :=
  match parseRegionOpt region with
  | none => none
  | some r =>
      match st.thumbnailer with
      | some ep => some ⟨ep.get r, st, false⟩
      | none =>
          match store (get_cache_key env "ep-thumbnailer") with
          | none => some ⟨none, st, true⟩
          | some payload =>
              match deserialize payload with
              | DeserResult.crash => none
              | DeserResult.err => some ⟨none, st, true⟩
              | DeserResult.ok ep =>
                  some ⟨ep.get r, { st with thumbnailer := some ep }, true⟩

/-- Mirrors `Siblings::xchange` (`src/lib.rs` lines 354-371). -/
def xchange (env : Env) (store : String → Option Payload) (st : Endpoints)
    (region : Option String) : Option StepResult :=
  match parseRegionOpt region with
  | none => none
  | some r =>
      match st.xchange with
      | some ep => some ⟨ep.get r, st, false⟩
      | none =>
          match store (get_cache_key env "ep-xchange") with
          | none => some ⟨none, st, true⟩
          | some payload =>
              match deserialize payload with
              | DeserResult.crash => none
              | DeserResult.err => some ⟨none, st, true⟩
              | DeserResult.ok ep =>
                  some ⟨ep.get r, { st with xchange := some ep }, true⟩

/-- Mirrors `Siblings::sibling` (`src/lib.rs` lines 373-390): fast path
looks the literal name up in the open `siblings` mapping; on miss fetch
key "ep-" ++ name, deserialize and insert into the open mapping; on fetch
or deserialize error return `None` with the registry untouched. -/
def sibling (env : Env) (store : String → Option Payload) (st : Endpoints)
    (name : String) (region : Option String) : Option StepResult :=
  match parseRegionOpt region with
  | none => none
  | some r =>
      match mapGet st.siblings name with
      | some ep => some ⟨ep.get r, st, false⟩
      | none =>
          match store (get_cache_key env ("ep-" ++ name)) with
          | none => some ⟨none, st, true⟩
          | some payload =>
              match deserialize payload with
              | DeserResult.crash => none
              | DeserResult.err => some ⟨none, st, true⟩
              | DeserResult.ok ep =>
                  some ⟨ep.get r,
                    { st with siblings := mapInsert st.siblings name ep },
                    true⟩

/-- Mirrors `Siblings::flush` (`src/lib.rs` lines 400-403): the registry
is replaced wholesale by `Endpoints::default()`. -/
def flush (_ep : Endpoints) : Endpoints :=
  Endpoints.default

/-- The record built for one local-override entry: the entry's value is a
port and the default address is the loopback URL, with no region
overrides (`..Default::default()`). -/
def localEndpoint (val : String) : RegionEndpoint :=
  ⟨"http://localhost:" ++ val, none, none⟩

/-- Character-level model of `key.split('_')`: the maximal groups of
characters between underscores, with adjacent, leading or trailing
underscores producing empty groups, as in Rust. -/
def splitUnderscore : List Char → List (List Char)
  | [] => [[]]
  | c :: rest =>
      if c = '_' then [] :: splitUnderscore rest
      else
        match splitUnderscore rest with
        | [] => [[c]]
        | g :: gs => (c :: g) :: gs

/-- Character-level model of `.join("-")` on the split groups. -/
def joinHyphen : List (List Char) → List Char
  | [] => []
  | [g] => g
  | g :: gs => g ++ '-' :: joinHyphen gs

/-- The key normalization of the open-mapping branch of
`Siblings::for_local`: `key.split('_').collect::<Vec<_>>().join("-")`,
i.e. every underscore replaced by a hyphen. -/
def normalizeKey (key : String) : String :=
  String.mk (joinHyphen (splitUnderscore key.data))

/-- Mirrors the per-entry body of the `for item in f_iter` loop of
`Siblings::for_local` (`src/lib.rs` lines 128-167): nine literal keys
route to their fixed slot; every other key is normalized and inserted
into the open mapping.  The source has no branch for "august". -/
def for_local_step (st : Endpoints) (key val : String) : Endpoints :=
  if key = "bank-statement" then
    { st with bankstatement := some (localEndpoint val) }
  else if key = "k9" then { st with k9 := some (localEndpoint val) }
  else if key = "matrix" then { st with matrix := some (localEndpoint val) }
  else if key = "pandora" then { st with pandora := some (localEndpoint val) }
  else if key = "retina" then { st with retina := some (localEndpoint val) }
  else if key = "schematron" then
    { st with schematron := some (localEndpoint val) }
  else if key = "sentry" then { st with sentry := some (localEndpoint val) }
  else if key = "thumbnailer" then
    { st with thumbnailer := some (localEndpoint val) }
  else if key = "xchange" then { st with xchange := some (localEndpoint val) }
  else
    { st with
      siblings := mapInsert st.siblings (normalizeKey key) (localEndpoint val) }

/-- Mirrors `Siblings::for_local` (`src/lib.rs` lines 114-170) on a
successfully opened local source: starting from the empty registry, the
entries of "svc.env" are folded through the loop body in order. -/
def for_local (entries : List (String × String)) : Endpoints :=
  entries.foldl (fun st kv => for_local_step st kv.1 kv.2) Endpoints.default

end Siblings

/-- C4 (counterexample): the claim says the parser case-folds, so "usa"
should parse to region US; in the source the match is on the exact
literals and "usa" hits the panicking catch-all arm. -/
theorem C4_counterexample :
    Siblings.Regions.fromStr "usa" = none := by decide

/-- C4 (amended): the region parser is case-sensitive: exactly the
literals "IN" and "IND" map to region IN, exactly "US" and "USA" map to
region US, and every other string (including lowercase variants such as
"in" or "usa") hits the unsupported-region panic. -/
theorem C4_amended :
    Siblings.Regions.fromStr "IN" = some Siblings.Regions.IN ∧
    Siblings.Regions.fromStr "IND" = some Siblings.Regions.IN ∧
    Siblings.Regions.fromStr "US" = some Siblings.Regions.US ∧
    Siblings.Regions.fromStr "USA" = some Siblings.Regions.US ∧
    ∀ s : String, s ≠ "IN" → s ≠ "IND" → s ≠ "US" → s ≠ "USA" →
      Siblings.Regions.fromStr s = none := by
  refine ⟨by decide, by decide, by decide, by decide, ?_⟩
  intro s h1 h2 h3 h4
  simp only [Siblings.Regions.fromStr, h1, h2, h3, h4, or_self, if_false]

/-- C4 witness: the amended theorem applied at the concrete string "in",
which is outside the (case-sensitive) alias set. -/
theorem C4_amended_witness :
    Siblings.Regions.fromStr "in" = none :=
  C4_amended.2.2.2.2 "in" (by decide) (by decide) (by decide) (by decide)

/-- C5: for every populated endpoint record, resolving with no region
returns the record's default address; resolving with region IN (resp. US)
returns the `ind` (resp. `usa`) override when present and the default
otherwise; and the result is always an address, never an absence. -/
theorem C5_record_resolution (ep : Siblings.RegionEndpoint) :
    ep.get none = some ep.default ∧
    ep.get (some Siblings.Regions.IN) = some (ep.ind.getD ep.default) ∧
    ep.get (some Siblings.Regions.US) = some (ep.usa.getD ep.default) ∧
    ∀ r : Option Siblings.Regions, (ep.get r).isSome := by
  refine ⟨rfl, ?_, ?_, ?_⟩
  · cases h : ep.ind <;> simp [Siblings.RegionEndpoint.get, h]
  · cases h : ep.usa <;> simp [Siblings.RegionEndpoint.get, h]
  · intro r
    cases r with
    | none => rfl
    | some r =>
        cases r with
        | IN => cases h : ep.ind <;> simp [Siblings.RegionEndpoint.get, h]
        | US => cases h : ep.usa <;> simp [Siblings.RegionEndpoint.get, h]

open Siblings.EndpointMap in
/-- C1 (evidence of the code bug): the well-known accessors do not all
read and write their own slot.  With the k9 slot holding the k9 record
and the retina slot holding the retina record, `retina` returns the k9
record's address; and from an empty registry, a successful `schematron`
fetch stores the record into the pandora slot, leaving the schematron
slot empty. -/
theorem C1_cross_slot_evidence :
    Siblings.retina Siblings.Env.Prod (fun _ => none)
      { Siblings.Endpoints.default with
          k9 := some ⟨"http://k9.svc", none, none⟩,
          retina := some ⟨"http://retina.svc", none, none⟩ } none =
      some ⟨some "http://k9.svc",
        { Siblings.Endpoints.default with
            k9 := some ⟨"http://k9.svc", none, none⟩,
            retina := some ⟨"http://retina.svc", none, none⟩ }, false⟩ ∧
    Siblings.schematron Siblings.Env.Prod
      (fun k => if k = "ep-schematron"
        then some (Siblings.Payload.jsonObj [("default", "http://sch.svc")])
        else none)
      Siblings.Endpoints.default none =
      some ⟨some "http://sch.svc",
        { Siblings.Endpoints.default with
            pandora := some ⟨"http://sch.svc", none, none⟩ }, true⟩ := by
  exact ⟨rfl, rfl⟩

/-- C2 (evidence of the code bug): a payload that deserializes as a JSON
object but lacks the "default" key makes `deserialize` hit the `unwrap`
panic, so the whole resolve call aborts (modelled by `none`) instead of
returning absence with the registry unchanged. -/
theorem C2_missing_default_panics :
    Siblings.deserialize (Siblings.Payload.jsonObj [("in", "http://x.svc")]) =
      Siblings.DeserResult.crash ∧
    Siblings.sibling Siblings.Env.Prod
      (fun k => if k = "ep-foo"
        then some (Siblings.Payload.jsonObj [("in", "http://x.svc")])
        else none)
      Siblings.Endpoints.default "foo" none = none := by
  exact ⟨rfl, rfl⟩

/-- C3 (evidence of the code bug): after a first successful `schematron`
resolution from the empty registry, the record sits in the pandora slot,
so a second `schematron` call misses its fast path and issues another
backing-store fetch (`fetched = true` on both calls). -/
theorem C3_second_fetch_after_populate :
    Siblings.schematron Siblings.Env.Prod
      (fun k => if k = "ep-schematron"
        then some (Siblings.Payload.jsonObj [("default", "http://s.svc")])
        else none)
      Siblings.Endpoints.default none =
      some ⟨some "http://s.svc",
        { Siblings.Endpoints.default with
            pandora := some ⟨"http://s.svc", none, none⟩ }, true⟩ ∧
    Siblings.schematron Siblings.Env.Prod
      (fun k => if k = "ep-schematron"
        then some (Siblings.Payload.jsonObj [("default", "http://s.svc")])
        else none)
      { Siblings.Endpoints.default with
          pandora := some ⟨"http://s.svc", none, none⟩ } none =
      some ⟨some "http://s.svc",
        { Siblings.Endpoints.default with
            pandora := some ⟨"http://s.svc", none, none⟩ }, true⟩ := by
  exact ⟨rfl, rfl⟩

open Siblings.EndpointMap in
/-- C6: when the record is absent and the backing-store read fails or the
payload cannot be deserialized, `sibling` returns absence with the
registry unchanged after having issued a fetch; since the registry comes
back unchanged, every later call for the same sibling is the identical
call and issues a fresh fetch (no negative caching). -/
theorem C6_total_miss_retries (env : Siblings.Env)
    (store : String → Option Siblings.Payload) (st : Siblings.Endpoints)
    (name : String) (rs : Option String) (ro : Option Siblings.Regions)
    (hreg : Siblings.parseRegionOpt rs = some ro)
    (hmiss : mapGet st.siblings name = none)
    (hfail : store (Siblings.get_cache_key env ("ep-" ++ name)) = none ∨
      store (Siblings.get_cache_key env ("ep-" ++ name)) =
        some Siblings.Payload.malformed) :
    Siblings.sibling env store st name rs = some ⟨none, st, true⟩ ∧
    ∀ out : Siblings.StepResult,
      Siblings.sibling env store st name rs = some out → out.fetched = true := by
  have h1 : Siblings.sibling env store st name rs = some ⟨none, st, true⟩ := by
    rcases hfail with h | h <;>
      simp [Siblings.sibling, hreg, hmiss, h, Siblings.deserialize]
  refine ⟨h1, ?_⟩
  intro out hout
  rw [h1] at hout
  cases hout
  rfl

/-- C6 witness: a concrete total miss (store always fails) on sibling
"foo" from the empty registry. -/
theorem C6_total_miss_retries_witness :
    Siblings.sibling Siblings.Env.Prod (fun _ => none)
      Siblings.Endpoints.default "foo" none =
      some ⟨none, Siblings.Endpoints.default, true⟩ :=
  (C6_total_miss_retries Siblings.Env.Prod (fun _ => none)
    Siblings.Endpoints.default "foo" none none rfl rfl (Or.inl rfl)).1

/-- C7: the resolver reads key "ep-" ++ name in production and
"dev-ep-" ++ name in development, the seed tool writes under exactly the
same two key forms, and no development key ever equals a production
key. -/
theorem C7_key_namespacing :
    (∀ name : String,
      Siblings.get_cache_key Siblings.Env.Prod ("ep-" ++ name) =
        "ep-" ++ name ∧
      Siblings.get_cache_key Siblings.Env.Dev ("ep-" ++ name) =
        "dev-ep-" ++ name ∧
      Siblings.load_key false name = "ep-" ++ name ∧
      Siblings.load_key true name = "dev-ep-" ++ name) ∧
    ∀ n m : String, "dev-ep-" ++ n ≠ "ep-" ++ m := by
  constructor
  · intro name
    refine ⟨rfl, ?_, rfl, rfl⟩
    show "dev-" ++ ("ep-" ++ name) = "dev-ep-" ++ name
    rw [← String.append_assoc]
    exact rfl
  · intro n m h
    have h2 := congrArg String.data h
    simp [String.data_append] at h2

/-- C7 witness: the parts of the namespacing theorem instantiated at the
concrete sibling name "august". -/
theorem C7_key_namespacing_witness :
    Siblings.get_cache_key Siblings.Env.Dev "ep-august" = "dev-ep-august" ∧
    "dev-ep-august" ≠ "ep-august" :=
  ⟨(C7_key_namespacing.1 "august").2.1,
   fun h => C7_key_namespacing.2 "august" "august" h⟩

/-- C8: flushing replaces the whole registry by the empty one, and every
resolve operation called on a flushed registry (with no intervening
populate) takes its slow path, i.e. issues a backing-store fetch — for
each of the ten well-known accessors and for the generic sibling path. -/
theorem C8_flush_then_refetch :
    (∀ st : Siblings.Endpoints,
      Siblings.flush st = Siblings.Endpoints.default) ∧
    (∀ env store st rs (out : Siblings.StepResult),
      Siblings.august env store (Siblings.flush st) rs = some out →
        out.fetched = true) ∧
    (∀ env store st rs (out : Siblings.StepResult),
      Siblings.k9 env store (Siblings.flush st) rs = some out →
        out.fetched = true) ∧
    (∀ env store st rs (out : Siblings.StepResult),
      Siblings.retina env store (Siblings.flush st) rs = some out →
        out.fetched = true) ∧
    (∀ env store st rs (out : Siblings.StepResult),
      Siblings.bankstatement env store (Siblings.flush st) rs = some out →
        out.fetched = true) ∧
    (∀ env store st rs (out : Siblings.StepResult),
      Siblings.matrix env store (Siblings.flush st) rs = some out →
        out.fetched = true) ∧
    (∀ env store st rs (out : Siblings.StepResult),
      Siblings.pandora env store (Siblings.flush st) rs = some out →
        out.fetched = true) ∧
    (∀ env store st rs (out : Siblings.StepResult),
      Siblings.schematron env store (Siblings.flush st) rs = some out →
        out.fetched = true) ∧
    (∀ env store st rs (out : Siblings.StepResult),
      Siblings.sentry env store (Siblings.flush st) rs = some out →
        out.fetched = true) ∧
    (∀ env store st rs (out : Siblings.StepResult),
      Siblings.thumbnailer env store (Siblings.flush st) rs = some out →
        out.fetched = true) ∧
    (∀ env store st rs (out : Siblings.StepResult),
      Siblings.xchange env store (Siblings.flush st) rs = some out →
        out.fetched = true) ∧
    (∀ env store st name rs (out : Siblings.StepResult),
      Siblings.sibling env store (Siblings.flush st) name rs = some out →
        out.fetched = true) := by
  refine ⟨fun _ => rfl, ?_, ?_, ?_, ?_, ?_, ?_, ?_, ?_, ?_, ?_, ?_⟩ <;>
  · intros
    rename_i h
    first
    | unfold Siblings.august at h
    | unfold Siblings.k9 at h
    | unfold Siblings.retina at h
    | unfold Siblings.bankstatement at h
    | unfold Siblings.matrix at h
    | unfold Siblings.pandora at h
    | unfold Siblings.schematron at h
    | unfold Siblings.sentry at h
    | unfold Siblings.thumbnailer at h
    | unfold Siblings.xchange at h
    | unfold Siblings.sibling at h
    split at h
    · exact Option.noConfusion h
    · simp only [Siblings.flush, Siblings.Endpoints.default,
        Siblings.EndpointMap.mapGet] at h
      split at h
      · cases h; rfl
      · split at h
        · exact Option.noConfusion h
        · cases h; rfl
        · cases h; rfl

/-- C8 witness: a registry whose august slot was populated is flushed;
the next `august` call against a store with no entries takes the slow
path and reports a fetch. -/
theorem C8_flush_then_refetch_witness :
    (⟨none, Siblings.Endpoints.default, true⟩ :
      Siblings.StepResult).fetched = true :=
  C8_flush_then_refetch.2.1 Siblings.Env.Prod (fun _ => none)
    { Siblings.Endpoints.default with
        august := some ⟨"http://a.svc", none, none⟩ } none
    ⟨none, Siblings.Endpoints.default, true⟩ rfl

open Siblings.EndpointMap in
/-- C9 (counterexample): "august" is a well-known sibling with a fixed
slot, yet the local-override loop has no branch for it; seeding the local
source with the single entry ("august", "8080") leaves the august slot
empty and puts the record into the open mapping instead. -/
theorem C9_counterexample :
    (Siblings.for_local [("august", "8080")]).august = none ∧
    mapGet (Siblings.for_local [("august", "8080")]).siblings "august" =
      some ⟨"http://localhost:8080", none, none⟩ := by
  exact ⟨rfl, by decide⟩

open Siblings.EndpointMap in
/-- C9 (amended): every local entry seeds a record whose default address
is "http://localhost:" ++ value with no region overrides; the nine keys
"bank-statement", "k9", "matrix", "pandora", "retina", "schematron",
"sentry", "thumbnailer" and "xchange" route to their fixed slot, while
every other key — including the well-known sibling "august" — is
inserted into the open mapping with underscores normalized to hyphens. -/
theorem C9_amended (st : Siblings.Endpoints) (key val : String) :
    (key = "bank-statement" → Siblings.for_local_step st key val =
      { st with bankstatement := some ⟨"http://localhost:" ++ val, none, none⟩ }) ∧
    (key = "k9" → Siblings.for_local_step st key val =
      { st with k9 := some ⟨"http://localhost:" ++ val, none, none⟩ }) ∧
    (key = "matrix" → Siblings.for_local_step st key val =
      { st with matrix := some ⟨"http://localhost:" ++ val, none, none⟩ }) ∧
    (key = "pandora" → Siblings.for_local_step st key val =
      { st with pandora := some ⟨"http://localhost:" ++ val, none, none⟩ }) ∧
    (key = "retina" → Siblings.for_local_step st key val =
      { st with retina := some ⟨"http://localhost:" ++ val, none, none⟩ }) ∧
    (key = "schematron" → Siblings.for_local_step st key val =
      { st with schematron := some ⟨"http://localhost:" ++ val, none, none⟩ }) ∧
    (key = "sentry" → Siblings.for_local_step st key val =
      { st with sentry := some ⟨"http://localhost:" ++ val, none, none⟩ }) ∧
    (key = "thumbnailer" → Siblings.for_local_step st key val =
      { st with thumbnailer := some ⟨"http://localhost:" ++ val, none, none⟩ }) ∧
    (key = "xchange" → Siblings.for_local_step st key val =
      { st with xchange := some ⟨"http://localhost:" ++ val, none, none⟩ }) ∧
    (key ≠ "bank-statement" → key ≠ "k9" → key ≠ "matrix" →
      key ≠ "pandora" → key ≠ "retina" → key ≠ "schematron" →
      key ≠ "sentry" → key ≠ "thumbnailer" → key ≠ "xchange" →
      Siblings.for_local_step st key val =
      { st with siblings :=
          (mapInsert st.siblings (Siblings.normalizeKey key)
            ⟨"http://localhost:" ++ val, none, none⟩) }) := by
  refine ⟨?_, ?_, ?_, ?_, ?_, ?_, ?_, ?_, ?_, ?_⟩
  · intro h; subst h; simp [Siblings.for_local_step, Siblings.localEndpoint]
  · intro h; subst h; simp [Siblings.for_local_step, Siblings.localEndpoint]
  · intro h; subst h; simp [Siblings.for_local_step, Siblings.localEndpoint]
  · intro h; subst h; simp [Siblings.for_local_step, Siblings.localEndpoint]
  · intro h; subst h; simp [Siblings.for_local_step, Siblings.localEndpoint]
  · intro h; subst h; simp [Siblings.for_local_step, Siblings.localEndpoint]
  · intro h; subst h; simp [Siblings.for_local_step, Siblings.localEndpoint]
  · intro h; subst h; simp [Siblings.for_local_step, Siblings.localEndpoint]
  · intro h; subst h; simp [Siblings.for_local_step, Siblings.localEndpoint]
  · intro h1 h2 h3 h4 h5 h6 h7 h8 h9
    simp [Siblings.for_local_step, Siblings.localEndpoint,
      h1, h2, h3, h4, h5, h6, h7, h8, h9]

/-- C9 witness: the amended routing applied to a concrete open-ended
entry ("bank_stat", "8080"): the key is normalized to "bank-stat" and
inserted into the open mapping with the loopback default address. -/
theorem C9_amended_witness :
    Siblings.for_local_step Siblings.Endpoints.default "bank_stat" "8080" =
      { Siblings.Endpoints.default with
          siblings :=
            (Siblings.EndpointMap.mapInsert [] "bank-stat"
              ⟨"http://localhost:8080", none, none⟩) } := by
  have h := (C9_amended Siblings.Endpoints.default "bank_stat" "8080").2.2.2.2.2.2.2.2.2
    (by decide) (by decide) (by decide) (by decide) (by decide)
    (by decide) (by decide) (by decide) (by decide)
  rw [h]
  decide

open Siblings.EndpointMap in
/-- C10: the generic `sibling` operation is framed on the open mapping:
whatever it returns, every fixed well-known slot of the registry is
unchanged, and its fast-path decision reads only the open mapping — when
the requested name (even a well-known one such as "august") is absent
from the open mapping a backing-store fetch is issued, regardless of the
fixed slots' contents. -/
theorem C10_generic_path_frame (env : Siblings.Env)
    (store : String → Option Siblings.Payload) (st : Siblings.Endpoints)
    (name : String) (rs : Option String) (out : Siblings.StepResult)
    (h : Siblings.sibling env store st name rs = some out) :
    (out.st.august = st.august ∧ out.st.bankstatement = st.bankstatement ∧
     out.st.k9 = st.k9 ∧ out.st.matrix = st.matrix ∧
     out.st.pandora = st.pandora ∧ out.st.retina = st.retina ∧
     out.st.schematron = st.schematron ∧ out.st.sentry = st.sentry ∧
     out.st.thumbnailer = st.thumbnailer ∧ out.st.xchange = st.xchange) ∧
    (mapGet st.siblings name = none → out.fetched = true) := by
  unfold Siblings.sibling at h
  split at h
  · exact Option.noConfusion h
  · split at h
    · next ep heq =>
        cases h
        refine ⟨⟨rfl, rfl, rfl, rfl, rfl, rfl, rfl, rfl, rfl, rfl⟩, ?_⟩
        intro hnone
        rw [heq] at hnone
        exact Option.noConfusion hnone
    · split at h
      · cases h
        exact ⟨⟨rfl, rfl, rfl, rfl, rfl, rfl, rfl, rfl, rfl, rfl⟩, fun _ => rfl⟩
      · split at h
        · exact Option.noConfusion h
        · cases h
          exact ⟨⟨rfl, rfl, rfl, rfl, rfl, rfl, rfl, rfl, rfl, rfl⟩, fun _ => rfl⟩
        · cases h
          exact ⟨⟨rfl, rfl, rfl, rfl, rfl, rfl, rfl, rfl, rfl, rfl⟩, fun _ => rfl⟩

/-- C10 witness: calling the generic path for "august" against a registry
whose august fixed slot is populated but whose open mapping is empty: the
call misses, leaves the fixed slot as it was, and reports a fetch. -/
theorem C10_generic_path_frame_witness :
    Siblings.sibling Siblings.Env.Prod (fun _ => none)
      { Siblings.Endpoints.default with
          august := some ⟨"http://a.svc", none, none⟩ } "august" none =
      some ⟨none,
        { Siblings.Endpoints.default with
            august := some ⟨"http://a.svc", none, none⟩ }, true⟩ ∧
    (⟨none,
      { Siblings.Endpoints.default with
          august := some ⟨"http://a.svc", none, none⟩ }, true⟩ :
        Siblings.StepResult).fetched = true :=
  ⟨rfl,
   (C10_generic_path_frame Siblings.Env.Prod (fun _ => none)
      { Siblings.Endpoints.default with
          august := some ⟨"http://a.svc", none, none⟩ } "august" none
      ⟨none,
        { Siblings.Endpoints.default with
            august := some ⟨"http://a.svc", none, none⟩ }, true⟩ rfl).2 rfl⟩
